import Mathlib

/-!
Shallow embedding of the PromptForge app (src/app.py): the model-catalog
resolver built in the sidebar (lines 38-56), the prompt template
`get_architect_prompt` (lines 73-95), the optional-hint concatenation
building `full_input` (lines 133-135), and the submit handler with its
validation and error branches (lines 120-157).

External effects are made explicit parameters: the outcome of
`genai.list_models()` is an `Except` value (exception or list of model
records), and the generation call is a function from the instruction
string to an `Except` value (exception message or response text).
Python string truthiness (`if api_key:`) is modelled as a test against
the empty string, and Python substring membership (`"429" in str(e)`)
as an executable character-list search.
-/

/-- A record returned by the external model-listing endpoint: a name and
the set of supported generation methods (src/app.py line 47 accesses
`m.name` and `m.supported_generation_methods`). -/
structure ModelEntry where
  name : String
  supported_generation_methods : List String
deriving Repr, DecidableEq

/-- Line 38: hardcoded safe defaults, 1.5-flash first. -/
def safe_models : List String :=
  ["gemini-1.5-flash", "gemini-1.5-pro", "gemini-2.0-flash-exp"]

/-- Does `pat` occur at the start of the character list? -/
def startsWithChars : List Char → List Char → Bool
  | [], _ => true
  | _ :: _, [] => false
  | p :: ps, c :: cs => p == c && startsWithChars ps cs

/-- Replace every (leftmost, non-overlapping) occurrence of `pat` with
`rep`, scanning left to right. The second argument counts characters of
a just-matched pattern occurrence that remain to be skipped. -/
def replaceCharsAux (pat rep : List Char) : List Char → Nat → List Char
  | [], _ => []
  | _ :: cs, Nat.succ k => replaceCharsAux pat rep cs k
  | c :: cs, 0 =>
    if startsWithChars pat (c :: cs) then
      rep ++ replaceCharsAux pat rep cs (pat.length - 1)
    else
      c :: replaceCharsAux pat rep cs 0

/-- Python `s.replace(pat, rep)` for non-empty `pat`: replace all
occurrences, left to right, non-overlapping. Executable counterpart of
`String.replace`, which is defined by well-founded recursion and does
not reduce. -/
def strReplace (s pat rep : String) : String :=
  if pat.data = [] then s else String.mk (replaceCharsAux pat.data rep.data s.data 0)

/-- Line 47: names of the fetched models that support `generateContent`,
with every occurrence of `models/` removed from the name (Python
`str.replace("models/", "")` replaces all occurrences). -/
def all_models (fetched : List ModelEntry) : List String :=
  (fetched.filter
      (fun m => decide ("generateContent" ∈ m.supported_generation_methods))).map
    (fun m => strReplace m.name "models/" "")

/-- Line 50: fetched models that are not already in the safe list. -/
def other_models (fetched : List ModelEntry) : List String :=
  (all_models fetched).filter (fun m => decide (m ∉ safe_models))

/-- Lines 40-56: the model option list. `fetch` is the outcome of the
`try` block around `genai.list_models()`: `Except.error` is a raised
exception (the `except` clause falls back to the default list),
`Except.ok` carries the listed model records. With no credential the
`if api_key:` guard skips the fetch entirely. -/
def model_options (api_key : String) (fetch : Except String (List ModelEntry)) :
    List String :=
  if api_key = "" then safe_models
  else
    match fetch with
    | Except.ok fetched => safe_models ++ other_models fetched
    | Except.error _ => safe_models

/-- Line 43: `genai.list_models()` is invoked exactly when the credential
is truthy (non-empty). -/
def list_models_called (api_key : String) : Bool :=
  api_key != ""

/-- User-facing messages emitted by the page (st.error / st.warning /
st.success / st.info / st.code / st.caption). -/
inductive UiMsg where
  | error (s : String)
  | warning (s : String)
  | success (s : String)
  | info (s : String)
  | code (s : String)
  | caption (s : String)
deriving Repr, DecidableEq

/-- Lines 43-56: messages surfaced by the catalog-resolution block.
Every branch is empty: the `try` body only computes, and the `except`
clause is `pass`. -/
def catalog_messages (api_key : String) (fetch : Except String (List ModelEntry)) :
    List UiMsg :=
  if api_key = "" then []
  else
    match fetch with
    | Except.ok _ => []
    | Except.error _ => []

/-- Does `pat` occur anywhere in the character list? -/
def occursIn (pat : List Char) : List Char → Bool
  | [] => startsWithChars pat []
  | c :: cs => startsWithChars pat (c :: cs) || occursIn pat cs

/-- Python substring membership `t in s`. -/
def strContains (s t : String) : Bool :=
  occursIn t.data s.data

/-- Lines 73-95: the f-string template, split at its two interpolation
points. The literal text (indentation and blank template lines included)
is transcribed byte-for-byte from the source. -/
def get_architect_prompt (user_task detail_level : String) : String :=
  "\n    You are an Expert Prompt Engineer and LLM Architect. \n    Your goal is to take a vague user request and transform it into a highly structured, professional \"Masterprompt\" optimized for Large Language Models.\n    \n    **USER REQUEST:**\n    \"" ++
  user_task ++
  "\"\n    \n    **REQUIRED OUTPUT STRUCTURE:**\n    You must generate a structured prompt that contains the following sections:\n    \n    1. **Role:** Define a specific expert persona.\n    2. **Context:** Describe the situation and background.\n    3. **Task:** A clear, step-by-step definition of what needs to be done.\n    4. **Constraints:** Specific rules (e.g., tone, formatting).\n    5. **Output Format:** Exactly how the result should look.\n    \n    **CONFIGURATION:**\n    - Detail Level: " ++
  detail_level ++
  "\n    - Tone: Professional, Direct, and Actionable.\n    \n    Output ONLY the optimized prompt within a code block.\n    "

/-- Lines 133-135: the task text with the optional audience and format
hints appended when those strings are truthy (non-empty). -/
def full_input (user_input audience format_pref : String) : String :=
  let fi1 := user_input
  let fi2 := if audience = "" then fi1
    else fi1 ++ "\n(Target Audience: " ++ audience ++ ")"
  let fi3 := if format_pref = "" then fi2
    else fi2 ++ "\n(Format Preference: " ++ format_pref ++ ")"
  fi3

/-- Line 122: error shown when the credential is missing. -/
def api_key_error_text : String :=
  "⚠️ Please enter your Gemini API Key in the sidebar or secrets.toml."

/-- Line 124: warning shown when the task text is empty. -/
def task_warning_text : String :=
  "⚠️ Please describe your task first."

/-- Line 151: error header for the rate-limit case. -/
def quota_error_text : String :=
  "📉 **Quota Exceeded (429 Error)**"

/-- Line 152: warning body for the rate-limit case. -/
def rate_limit_warning_text : String :=
  "You have hit the free rate limit for this model. Please wait 60 seconds and try again, or switch to \x27gemini-1.5-flash\x27 in the sidebar."

/-- Line 155: info shown alongside the generic error. -/
def generic_error_info_text : String :=
  "Try selecting a different model (like gemini-1.5-flash) in the sidebar."

/-- Lines 120-157: the submit handler. Returns the messages shown in the
output column and whether the external generation call was made.
`generate_content` models the external endpoint: given the instruction
string it either raises (message text) or returns response text. -/
def submit (generate_btn : Bool)
    (api_key user_input audience format_pref detail_level : String)
    (generate_content : String → Except String String) : List UiMsg × Bool :=
  if generate_btn = false then
    ([UiMsg.info "The generated Masterprompt will appear here ready to copy."], false)
  else if api_key = "" then
    ([UiMsg.error api_key_error_text], false)
  else if user_input = "" then
    ([UiMsg.warning task_warning_text], false)
  else
    let architect_instruction :=
      get_architect_prompt (full_input user_input audience format_pref) detail_level
    match generate_content architect_instruction with
    | Except.ok text =>
        ([UiMsg.success "Masterprompt Generated!", UiMsg.code text,
          UiMsg.caption "Copy the code above and paste it into your LLM chat."], true)
    | Except.error e =>
        if strContains e "429" then
          ([UiMsg.error quota_error_text,
            UiMsg.warning rate_limit_warning_text], true)
        else
          ([UiMsg.error ("An error occurred: " ++ e),
            UiMsg.info generic_error_info_text], true)

/-! ## Helper lemmas about the substring search -/

theorem startsWithChars_append (pat l r : List Char)
    (h : startsWithChars pat l = true) : startsWithChars pat (l ++ r) = true := by
  induction pat generalizing l with
  | nil => rfl
  | cons p ps ih =>
    cases l with
    | nil => simp [startsWithChars] at h
    | cons c cs =>
      simp only [startsWithChars, Bool.and_eq_true] at h
      simp only [List.cons_append, startsWithChars, Bool.and_eq_true]
      exact ⟨h.1, ih cs h.2⟩

theorem occursIn_nil_pat (l : List Char) : occursIn [] l = true := by
  cases l <;> simp [occursIn, startsWithChars]

theorem occursIn_append_left (pat l r : List Char)
    (h : occursIn pat l = true) : occursIn pat (l ++ r) = true := by
  induction l with
  | nil =>
    cases pat with
    | nil => exact occursIn_nil_pat r
    | cons p ps => simp [occursIn, startsWithChars] at h
  | cons c cs ih =>
    simp only [occursIn, Bool.or_eq_true] at h
    simp only [List.cons_append, occursIn, Bool.or_eq_true]
    rcases h with h | h
    · exact Or.inl (startsWithChars_append pat (c :: cs) r h)
    · exact Or.inr (ih h)

theorem occursIn_append_right (pat l r : List Char)
    (h : occursIn pat r = true) : occursIn pat (l ++ r) = true := by
  induction l with
  | nil => exact h
  | cons c cs ih =>
    simp only [List.cons_append, occursIn, Bool.or_eq_true]
    exact Or.inr ih

theorem strContains_append_left (a b t : String)
    (h : strContains a t = true) : strContains (a ++ b) t = true := by
  unfold strContains at h ⊢
  rw [String.data_append]
  exact occursIn_append_left _ _ _ h

theorem strContains_append_right (a b t : String)
    (h : strContains b t = true) : strContains (a ++ b) t = true := by
  unfold strContains at h ⊢
  rw [String.data_append]
  exact occursIn_append_right _ _ _ h

/-! ## Claims -/

/-- C1: with a credential present and a successful catalog fetch whose
filtered result contains models A and B, where B is in the hardcoded
safe list and A is not, the resulting model option list places all
safe-list entries first (in their fixed order), then contains A after
them, and contains exactly one occurrence of B. -/
theorem C1_safe_list_first_then_fetched (api_key : String) (hkey : api_key ≠ "")
    (fetched : List ModelEntry) (A B : String)
    (hA : A ∈ all_models fetched) (hB : B ∈ all_models fetched)
    (hAsafe : A ∉ safe_models) (hBsafe : B ∈ safe_models) :
    ∃ rest, model_options api_key (Except.ok fetched) = safe_models ++ rest ∧
      A ∈ rest ∧ (model_options api_key (Except.ok fetched)).count B = 1 := by
  refine ⟨other_models fetched, ?_, ?_, ?_⟩
  · simp [model_options, hkey]
  · simp only [other_models, List.mem_filter, decide_eq_true_eq]
    exact ⟨hA, hAsafe⟩
  · have hopts : model_options api_key (Except.ok fetched) =
        safe_models ++ other_models fetched := by simp [model_options, hkey]
    have hBnot : B ∉ other_models fetched := by
      intro hmem
      have := (List.mem_filter.mp hmem).2
      simp only [decide_eq_true_eq] at this
      exact this hBsafe
    rw [hopts, List.count_append,
      List.count_eq_one_of_mem (by decide) hBsafe,
      List.count_eq_zero.mpr hBnot]

theorem C1_witness :
    ∃ rest, model_options "k" (Except.ok
        [⟨"models/other-model", ["generateContent"]⟩,
         ⟨"models/gemini-1.5-pro", ["generateContent"]⟩]) = safe_models ++ rest ∧
      "other-model" ∈ rest ∧
      (model_options "k" (Except.ok
        [⟨"models/other-model", ["generateContent"]⟩,
         ⟨"models/gemini-1.5-pro", ["generateContent"]⟩])).count "gemini-1.5-pro" = 1 :=
  C1_safe_list_first_then_fetched "k" (by decide)
    [⟨"models/other-model", ["generateContent"]⟩,
     ⟨"models/gemini-1.5-pro", ["generateContent"]⟩]
    "other-model" "gemini-1.5-pro" (by decide) (by decide) (by decide) (by decide)

/-- C2: with no credential the model option list is exactly the
hardcoded fallback list, in its fixed order, and the listing endpoint is
not called. -/
theorem C2_no_credential_fallback (fetch : Except String (List ModelEntry)) :
    model_options "" fetch =
      ["gemini-1.5-flash", "gemini-1.5-pro", "gemini-2.0-flash-exp"] ∧
    list_models_called "" = false := by
  constructor
  · simp [model_options, safe_models]
  · rfl

/-- The instruction string the app constructs for task text
"summarize articles", audience "executives", and format preference
"bullet points" (lines 133-138). -/
def summarize_instruction (detail_level : String) : String :=
  get_architect_prompt
    (full_input "summarize articles" "executives" "bullet points") detail_level

set_option maxRecDepth 8192 in
/-- C3: for task text "summarize articles", audience "executives", and
format preference "bullet points", the constructed instruction string
contains all three substrings and each of the five section headers Role,
Context, Task, Constraints, Output Format — for every detail level. -/
theorem C3_instruction_contains_inputs_and_headers (detail_level : String) :
    strContains (summarize_instruction detail_level) "summarize articles" = true ∧
    strContains (summarize_instruction detail_level) "executives" = true ∧
    strContains (summarize_instruction detail_level) "bullet points" = true ∧
    strContains (summarize_instruction detail_level) "Role" = true ∧
    strContains (summarize_instruction detail_level) "Context" = true ∧
    strContains (summarize_instruction detail_level) "Task" = true ∧
    strContains (summarize_instruction detail_level) "Constraints" = true ∧
    strContains (summarize_instruction detail_level) "Output Format" = true := by
  unfold summarize_instruction get_architect_prompt
  refine ⟨?_, ?_, ?_, ?_, ?_, ?_, ?_, ?_⟩
  · apply strContains_append_left
    apply strContains_append_left
    apply strContains_append_left
    apply strContains_append_right
    decide
  · apply strContains_append_left
    apply strContains_append_left
    apply strContains_append_left
    apply strContains_append_right
    decide
  · apply strContains_append_left
    apply strContains_append_left
    apply strContains_append_left
    apply strContains_append_right
    decide
  · apply strContains_append_left
    apply strContains_append_left
    apply strContains_append_right
    decide
  · apply strContains_append_left
    apply strContains_append_left
    apply strContains_append_right
    decide
  · apply strContains_append_left
    apply strContains_append_left
    apply strContains_append_right
    decide
  · apply strContains_append_left
    apply strContains_append_left
    apply strContains_append_right
    decide
  · apply strContains_append_left
    apply strContains_append_left
    apply strContains_append_right
    decide

/-- C4: a submit with a credential present but empty task text makes no
external generation call and shows the task warning. -/
theorem C4_empty_task_no_call_warning
    (api_key audience format_pref detail_level : String) (hkey : api_key ≠ "")
    (generate_content : String → Except String String) :
    (submit true api_key "" audience format_pref detail_level generate_content).2
      = false ∧
    UiMsg.warning task_warning_text ∈
      (submit true api_key "" audience format_pref detail_level generate_content).1 := by
  simp [submit, hkey]

theorem C4_witness :
    (submit true "k" "" "aud" "fmt" "Standard" (fun _ => Except.ok "out")).2 = false ∧
    UiMsg.warning task_warning_text ∈
      (submit true "k" "" "aud" "fmt" "Standard" (fun _ => Except.ok "out")).1 :=
  C4_empty_task_no_call_warning "k" "aud" "fmt" "Standard" (by decide)
    (fun _ => Except.ok "out")

/-- C5: a submit with non-empty task text but no credential makes no
external generation call and shows the credential error. -/
theorem C5_no_credential_no_call_error
    (user_input audience format_pref detail_level : String) (hu : user_input ≠ "")
    (generate_content : String → Except String String) :
    (submit true "" user_input audience format_pref detail_level generate_content).2
      = false ∧
    UiMsg.error api_key_error_text ∈
      (submit true "" user_input audience format_pref detail_level generate_content).1 := by
  simp [submit]

theorem C5_witness :
    (submit true "" "do a task" "" "" "Standard" (fun _ => Except.ok "out")).2 = false ∧
    UiMsg.error api_key_error_text ∈
      (submit true "" "do a task" "" "" "Standard" (fun _ => Except.ok "out")).1 :=
  C5_no_credential_no_call_error "do a task" "" "" "Standard" (by decide)
    (fun _ => Except.ok "out")

/-- C6: when the external generation call fails, the rate-limit messages
are shown exactly when the failure text contains "429"; otherwise the
generic error messages are shown. -/
theorem C6_rate_limit_vs_generic_error
    (api_key user_input audience format_pref detail_level e : String)
    (hkey : api_key ≠ "") (hu : user_input ≠ "")
    (generate_content : String → Except String String)
    (hfail : generate_content
        (get_architect_prompt (full_input user_input audience format_pref)
          detail_level) = Except.error e) :
    (strContains e "429" = true →
      (submit true api_key user_input audience format_pref detail_level
          generate_content).1 =
        [UiMsg.error quota_error_text, UiMsg.warning rate_limit_warning_text]) ∧
    (strContains e "429" = false →
      (submit true api_key user_input audience format_pref detail_level
          generate_content).1 =
        [UiMsg.error ("An error occurred: " ++ e),
         UiMsg.info generic_error_info_text]) := by
  constructor <;> intro h <;> simp [submit, hkey, hu, hfail, h]

theorem C6_witness :
    (submit true "k" "do a task" "" "" "Standard"
        (fun _ => Except.error "ResourceExhausted: 429 quota exceeded")).1 =
      [UiMsg.error quota_error_text, UiMsg.warning rate_limit_warning_text] :=
  (C6_rate_limit_vs_generic_error "k" "do a task" "" "" "Standard"
      "ResourceExhausted: 429 quota exceeded" (by decide) (by decide)
      (fun _ => Except.error "ResourceExhausted: 429 quota exceeded") rfl).1
    (by decide)

/-- C7: every failure of the catalog fetch is swallowed: no message is
surfaced and the model option list is the hardcoded fallback. -/
theorem C7_fetch_failure_swallowed (api_key e : String) (hkey : api_key ≠ "") :
    model_options api_key (Except.error e) = safe_models ∧
    catalog_messages api_key (Except.error e) = [] := by
  simp [model_options, catalog_messages, hkey]

theorem C7_witness :
    model_options "k" (Except.error "network unreachable") = safe_models ∧
    catalog_messages "k" (Except.error "network unreachable") = [] :=
  C7_fetch_failure_swallowed "k" "network unreachable" (by decide)

/-- C8 counterexample: a fetched catalog whose (filtered, renamed) names
repeat produces a model option list with duplicate entries — the merge
only avoids duplicating safe-list entries, it does not deduplicate the
fetched names among themselves. -/
theorem C8_counterexample :
    ¬ (model_options "k" (Except.ok
        [⟨"models/duplicated-model", ["generateContent"]⟩,
         ⟨"models/duplicated-model", ["generateContent"]⟩])).Nodup := by
  decide

/-- C8 (amended): whenever the filtered fetched name list is itself free
of duplicates — in particular whenever no catalog is fetched — the model
option list contains no duplicate entries. -/
theorem C8_nodup_when_fetched_names_nodup (api_key : String)
    (fetch : Except String (List ModelEntry))
    (hfetch : ∀ fetched, fetch = Except.ok fetched → (all_models fetched).Nodup) :
    (model_options api_key fetch).Nodup := by
  unfold model_options
  by_cases hkey : api_key = ""
  · simp [hkey]; decide
  · simp only [hkey, if_false]
    cases fetch with
    | error e => show safe_models.Nodup; decide
    | ok fetched =>
      rw [List.nodup_append]
      refine ⟨by decide, (hfetch fetched rfl).filter _, ?_⟩
      intro a ha hmem
      have := (List.mem_filter.mp hmem).2
      simp only [decide_eq_true_eq] at this
      exact this ha

theorem C8_witness :
    (model_options "k" (Except.ok
        [⟨"models/fresh-model", ["generateContent"]⟩])).Nodup :=
  C8_nodup_when_fetched_names_nodup "k"
    (Except.ok [⟨"models/fresh-model", ["generateContent"]⟩])
    (by intro fetched h; injection h with h; subst h; decide)

/-- C9: the prompt construction is deterministic: equal task text and
equal detail level yield equal instruction strings. -/
theorem C9_architect_prompt_deterministic (t1 t2 d1 d2 : String)
    (ht : t1 = t2) (hd : d1 = d2) :
    get_architect_prompt t1 d1 = get_architect_prompt t2 d2 := by
  rw [ht, hd]

theorem C9_witness :
    get_architect_prompt "summarize articles" "Concise" =
      get_architect_prompt "summarize articles" "Concise" :=
  C9_architect_prompt_deterministic "summarize articles" "summarize articles"
    "Concise" "Concise" rfl rfl

/-- C10: with both optional hints empty, the text forwarded to the
template is the raw task text unchanged. -/
theorem C10_empty_hints_identity (user_input : String) :
    full_input user_input "" "" = user_input := by
  simp [full_input]
